import Mathlib

/-!
Shallow embedding of the two instructional notebooks of this repository
(the Neural-ODE notebook and the KL-divergence notebook).

Numeric arrays are embedded as lists over a commutative ring `R`
(instantiated at `ℚ` or `ℝ` in concrete statements); a weight matrix is a
list of rows, a bias is a flat list.  The `tanh` nonlinearity is passed as
a function parameter so that the structural definitions stay executable;
concrete real statements instantiate it with `Real.tanh`.
-/

set_option linter.unusedSectionVars false

namespace SummerSchool

variable {R : Type} [CommRing R]

/-- A per-layer parameter pair `(w, b)`: weight matrix (list of rows) and bias. -/
abbrev Layer (R : Type) := List (List R) × List R

/-- A parameter collection: the list of per-layer `(w, b)` pairs. -/
abbrev Params (R : Type) := List (Layer R)

/-- Embedding of `jnp.dot(xs, w)` for a vector `xs` (length `n`) and a matrix
`w` of shape `(n, q)` given as a list of `n` rows of length `q`:
entry `j` of the result is `Σ_i xs_i * w_i_j`. -/
def matVecL (xs : List R) (w : List (List R)) : List R :=
  (List.range (w.headD []).length).map
    (fun j => (List.zipWith (fun x row => x * row.getD j 0) xs w).sum)

/-- Embedding of the per-layer linear transformation
`outputs = jnp.dot(xs, w) + b` of `fcn`. -/
def linearT (xs : List R) (w : List (List R)) (b : List R) : List R :=
  List.zipWith (· + ·) (matVecL xs w) b

/-- One iteration of the loop body of `fcn`: the state is the pair of the
current `xs` and the (optionally bound) local variable `outputs`.  Before the
first iteration `outputs` is unbound, modelled as `none`. -/
def fcnStep (tanh : R → R) (st : List R × Option (List R)) (l : Layer R) :
    List R × Option (List R) :=
  let outputs := linearT st.1 l.1 l.2
  ((outputs.map tanh), some outputs)

/-- Embedding of the notebook function `fcn(theta, xs)`: iterate the loop body
over the layers and return the final value of the local variable `outputs`.
For an empty `theta` the loop body never runs and `outputs` is unbound
(`none`, the `NameError` branch of the Python code). -/
def fcn (tanh : R → R) (theta : Params R) (xs : List R) : Option (List R) :=
  (theta.foldl (fcnStep tanh) (xs, none)).2

/-- The composition of full per-layer steps (linear transformation followed by
the `tanh` nonlinearity) over a list of layers, as the spec describes the
feedforward pass. -/
def hiddenPass (tanh : R → R) (layers : Params R) (xs : List R) : List R :=
  layers.foldl (fun v l => (linearT v l.1 l.2).map tanh) xs

/-- Elementwise gradient-descent update of a weight matrix:
`w - step_size * dw`, entry by entry. -/
def matUpd (s : R) (w dw : List (List R)) : List (List R) :=
  List.zipWith (List.zipWith (fun x dx => x - s * dx)) w dw

/-- Elementwise gradient-descent update of a bias vector:
`b - step_size * db`, entry by entry. -/
def vecUpd (s : R) (b db : List R) : List R :=
  List.zipWith (fun x dx => x - s * dx) b db

/-- Embedding of `NODE_gd(theta, xs, ys)`.  The call `grad(NODE_L2loss)` is
passed in as the function `gradL` (the loss `NODE_L2loss` is left as an
exercise in the notebook); the list comprehension
`[(w - step_size * dw, b - step_size * db) for (w, b), (dw, db) in zip(theta, gradients)]`
is the zip-and-map below. -/
def NODE_gd (s : R) (gradL : Params R → List (List R) → List (List R) → Params R)
    (theta : Params R) (xs ys : List (List R)) : Params R :=
  (theta.zip (gradL theta xs ys)).map
    (fun p => (matUpd s p.1.1 p.2.1, vecUpd s p.1.2 p.2.2))

/-- Embedding of the training loop
`for i in range(train_iters): NODE_theta = NODE_gd(NODE_theta, input, target)`:
`n` successive overwrites of the parameter collection. -/
def trainLoop (s : R) (gradL : Params R → List (List R) → List (List R) → Params R)
    (xs ys : List (List R)) : ℕ → Params R → Params R
  | 0, theta => theta
  | Nat.succ n, theta => trainLoop s gradL xs ys n (NODE_gd s gradL theta xs ys)

/-- A vector of `q` successive draws from the random stream `s`, starting at
position `i`: embedding of `rng.randn(q)`. -/
def randnV (s : ℕ → R) (i q : ℕ) : List R :=
  (List.range q).map (fun j => s (i + j))

/-- A `p × q` matrix of `p * q` successive draws from the random stream `s`,
starting at position `i`: embedding of `rng.randn(p, q)` (row-major). -/
def randnM (s : ℕ → R) (i p q : ℕ) : List (List R) :=
  (List.range p).map (fun r => randnV s (i + r * q) q)

/-- The comprehension of `init_random_params`, threading the position in the
random stream across the drawn matrices and vectors. -/
def initAux (s : ℕ → R) : List (ℕ × ℕ) → ℕ → Params R
  | [], _ => []
  | (p, q) :: rest, i => (randnM s i p q, randnV s (i + p * q) q) :: initAux s rest (i + p * q + q)

/-- The consecutive layer-size pairs `zip(N[:-1], N[1:])` of a layer-size
list `N`. -/
def layerDims (N : List ℕ) : List (ℕ × ℕ) :=
  N.dropLast.zip N.tail

/-- Embedding of `init_random_params(N, rng)`: one `(rng.randn(p, q), rng.randn(q))`
pair for each consecutive pair `(p, q)` in `zip(N[:-1], N[1:])`, the random
generator modelled as a stream `s` of draws. -/
def init_random_params (N : List ℕ) (s : ℕ → R) : Params R :=
  initAux s (layerDims N) 0

/-- The matrix `w` has shape `(p, q)`: `p` rows, each of length `q`. -/
def matShape (w : List (List R)) (p q : ℕ) : Prop :=
  w.length = p ∧ ∀ row ∈ w, row.length = q

/-- The parameter collection matches the dimension list pairwise: the i-th
layer has a weight matrix of shape `(p_i, q_i)` and a bias of length `q_i`. -/
def paramsShape (theta : Params R) (dims : List (ℕ × ℕ)) : Prop :=
  List.Forall₂ (fun (l : Layer R) (pq : ℕ × ℕ) =>
    matShape l.1 pq.1 pq.2 ∧ l.2.length = pq.2) theta dims

/-- Notebook hyperparameter: the layer sizes `NODE_width = [2, 20, 1]`. -/
def NODE_width : List ℕ := [2, 20, 1]

/-- Notebook hyperparameter: the training step size `step_size = 0.0005`. -/
def step_size : ℚ := 0.0005

/-- Notebook hyperparameter: the iteration count `train_iters = 1000`. -/
def train_iters : ℕ := 1000

/-- Embedding of `input = jnp.reshape(jnp.linspace(-2.5, 2.5, 15), (15, 1))`:
fifteen equally spaced one-component rows from `-2.5` to `2.5`. -/
def NODE_input : List (List ℚ) :=
  (List.range 15).map (fun i => [(-(5 : ℚ) / 2) + (5 * (i : ℚ)) / 14])

/-- Embedding of `target = input**3 + 0.1 * input` (elementwise). -/
def NODE_target : List (List ℚ) :=
  NODE_input.map (fun row => row.map (fun x => x ^ 3 + (0.1 : ℚ) * x))

/-- Embedding of the harmonic-oscillator input `np.random.rand(200) * 30`:
two hundred draws from the stream `s`, each scaled by `30`. -/
def harmonicInput (s : ℕ → ℚ) : List ℚ :=
  (List.range 200).map (fun i => s i * 30)

/-- Modelled from the spec: Exercise 1 of the Neural-ODE notebook leaves the
function `ODESolve` unimplemented; the notebook markdown defines the single
Euler step it must perform as `z_{n+1} = z_n + v(z_n, t_n) * (t_{n+1} - t_n)`. -/
def ODESolve (v : R → R → R) (z tn tn1 : R) : R :=
  z + v z tn * (tn1 - tn)

/-- The names bound by top-level statements of the executed code cells of the
Neural-ODE notebook, in order of appearance (imports, assignments, `def`s and
the loop variable). -/
def part000Defined : List String :=
  ["jnp", "nprand", "grad", "jit", "vmap", "random", "odeint", "plt",
   "input", "target", "init_random_params", "fcn", "NODE_gd",
   "NODE_width", "step_size", "train_iters", "NODE_theta", "i",
   "fig", "ax", "new_inputs", "np", "tf", "ODE_model", "checkpoint", "history"]

/-- The names bound by top-level statements of the code cells of the
KL-divergence notebook. -/
def klNotebookDefined : List String :=
  ["keras", "layers", "tf", "P_x", "Q_x", "kl",
   "cifar10", "Sequential", "Dense", "Dropout", "Flatten", "Conv2D",
   "MaxPooling2D", "K", "img_width", "img_height", "batch_size",
   "no_epochs", "no_classes", "validation_split", "verbosity",
   "i_train", "o_train", "i_test", "o_test", "i_shape", "model"]

/-- The non-builtin names resolved, in order, when the training-loop cell
executes (including the names resolved inside the body of `NODE_gd` once it
is called). -/
def trainingLoopCellRefs : List String :=
  ["train_iters", "NODE_gd", "NODE_theta", "input", "target",
   "grad", "NODE_L2loss", "step_size"]

/-- The non-builtin names resolved, in order, when the plotting cell
executes. -/
def plotCellRefs : List String :=
  ["plt", "input", "target", "jnp", "batched_ODESolve", "NODE_theta"]

/-- The non-builtin names resolved, in order, when the harmonic-oscillator
target-data cell executes. -/
def targetCellRefs : List String :=
  ["np", "y", "y_prime", "input"]

/-- Evaluate a cell against an environment of defined names: the first
reference that is not defined raises a `NameError` carrying that name;
otherwise the cell runs to completion. -/
def evalCell (refs defs : List String) : Except String Unit :=
  match refs.find? (fun r => ! defs.contains r) with
  | some n => Except.error n
  | none => Except.ok ()

/-! ### Helper lemmas about the feedforward pass -/

theorem foldl_fcnStep_ne_nil (tanh : R → R) (l : Params R) (x : List R)
    (o o2 : Option (List R)) (h : l ≠ []) :
    l.foldl (fcnStep tanh) (x, o) = l.foldl (fcnStep tanh) (x, o2) := by
  cases l with
  | nil => exact absurd rfl h
  | cons p rest => rfl

theorem fcn_ne_nil_eq (tanh : R → R) (theta : Params R) (xs : List R) (h : theta ≠ []) :
    fcn tanh theta xs = some (linearT (hiddenPass tanh theta.dropLast xs)
      (theta.getLastD ([], [])).1 (theta.getLastD ([], [])).2) := by
  induction theta generalizing xs with
  | nil => exact absurd rfl h
  | cons p rest ih =>
    cases rest with
    | nil => simp [fcn, fcnStep, hiddenPass]
    | cons q rest2 =>
      have hne : (q :: rest2 : Params R) ≠ [] := by simp
      have step1 : fcn tanh (p :: q :: rest2) xs
          = fcn tanh (q :: rest2) ((linearT xs p.1 p.2).map tanh) := by
        show ((q :: rest2).foldl (fcnStep tanh)
          (fcnStep tanh (xs, none) p)).2 = fcn tanh (q :: rest2) ((linearT xs p.1 p.2).map tanh)
        rw [show fcnStep tanh (xs, none) p
            = ((linearT xs p.1 p.2).map tanh, some (linearT xs p.1 p.2)) from rfl]
        rw [foldl_fcnStep_ne_nil tanh (q :: rest2) _ _ none hne]
        rfl
      rw [step1, ih ((linearT xs p.1 p.2).map tanh) hne]
      simp [hiddenPass, List.getLastD]

/-! ### Claim theorems -/

/-- C1, counterexample: the claim states that `fcn(theta, xs)` equals the
composition of the per-layer steps (linear transform followed by `tanh`);
for the one-layer parameters `[(w, b)] = [([[1]], [0])]` and input `xs = [1]`
the code returns the final linear output `[1]`, while the composition of the
per-layer steps would return `[tanh 1] ≠ [1]`: the final `tanh` is not part
of the returned value. -/
theorem c1_counterexample_fcn_composition :
    fcn Real.tanh [([[(1 : ℝ)]], [0])] [1]
      ≠ some (hiddenPass Real.tanh [([[(1 : ℝ)]], [0])] [1]) := by
  have h1 : fcn Real.tanh [([[(1 : ℝ)]], [0])] [1] = some [1] := by
    simp [fcn, fcnStep, linearT, matVecL, show List.range 1 = [0] from rfl]
  have h2 : hiddenPass Real.tanh [([[(1 : ℝ)]], [0])] [1] = [Real.tanh 1] := by
    simp [hiddenPass, linearT, matVecL, show List.range 1 = [0] from rfl]
  have htanh : Real.tanh 1 < 1 := by
    rw [Real.tanh_eq_sinh_div_cosh]
    exact (div_lt_one (Real.cosh_pos 1)).2 (Real.sinh_lt_cosh 1)
  rw [h1, h2]
  intro hc
  have heq : (1 : ℝ) = Real.tanh 1 := by simpa using hc
  exact absurd heq.symm (ne_of_lt htanh)

/-- C1 (amended): for every non-empty parameter list `theta` and every input
`xs`, `fcn(theta, xs)` applies the per-layer step (linear transform followed
by `tanh`) to all layers but returns the final layer's linear output, i.e.
the composition of the full per-layer steps over all but the last layer,
followed by the last layer's linear transform without the final `tanh`. -/
theorem c1_amended_fcn_last_linear (tanh : R → R) (theta : Params R) (xs : List R)
    (h : theta ≠ []) :
    fcn tanh theta xs = some (linearT (hiddenPass tanh theta.dropLast xs)
      (theta.getLastD ([], [])).1 (theta.getLastD ([], [])).2) :=
  fcn_ne_nil_eq tanh theta xs h

/-- Witness for the amended C1 at a concrete input: a one-layer network over
`ℚ` with the identity in place of `tanh`. -/
theorem c1_amended_fcn_last_linear_witness :
    (([(([[1]], [0]) : Layer ℚ)]) ≠ []) ∧
      fcn (fun x => x) [(([[1]], [0]) : Layer ℚ)] [1]
        = some (linearT (hiddenPass (fun x => x) ([(([[1]], [0]) : Layer ℚ)]).dropLast [1])
            (([(([[1]], [0]) : Layer ℚ)]).getLastD ([], [])).1
            (([(([[1]], [0]) : Layer ℚ)]).getLastD ([], [])).2) :=
  ⟨by decide, c1_amended_fcn_last_linear (fun x => x) [(([[1]], [0]) : Layer ℚ)] [1] (by decide)⟩

/-- C9: for the empty parameter list the loop body of `fcn` never executes and
the local variable `outputs` is never bound, so evaluation fails (`none`); this
failure happens exactly for the empty list, and under the precondition that
`theta` is non-empty `fcn` returns the final layer's linear output. -/
theorem c9_fcn_empty_unbound (tanh : R → R) (theta : Params R) (xs : List R)
    (h : theta ≠ []) :
    fcn tanh ([] : Params R) xs = none
    ∧ (∀ t : Params R, fcn tanh t xs = none ↔ t = [])
    ∧ fcn tanh theta xs = some (linearT (hiddenPass tanh theta.dropLast xs)
        (theta.getLastD ([], [])).1 (theta.getLastD ([], [])).2) := by
  refine ⟨rfl, fun t => ⟨fun hn => ?_, fun ht => by subst ht; rfl⟩,
    fcn_ne_nil_eq tanh theta xs h⟩
  by_contra hne
  rw [fcn_ne_nil_eq tanh t xs hne] at hn
  simp at hn

/-- Witness for C9 at a concrete input. -/
theorem c9_fcn_empty_unbound_witness :
    (([(([[1]], [0]) : Layer ℚ)]) ≠ []) ∧
      (fcn (fun x => x) ([] : Params ℚ) [1] = none
      ∧ (∀ t : Params ℚ, fcn (fun x => x) t [1] = none ↔ t = [])
      ∧ fcn (fun x => x) [(([[1]], [0]) : Layer ℚ)] [1]
          = some (linearT (hiddenPass (fun x => x) ([(([[1]], [0]) : Layer ℚ)]).dropLast [1])
              (([(([[1]], [0]) : Layer ℚ)]).getLastD ([], [])).1
              (([(([[1]], [0]) : Layer ℚ)]).getLastD ([], [])).2)) :=
  ⟨by decide, c9_fcn_empty_unbound (fun x => x) [(([[1]], [0]) : Layer ℚ)] [1] (by decide)⟩

/-! ### Helper lemmas about the training loop and elementwise indexing -/

theorem trainLoop_succ_right (s : R)
    (g : Params R → List (List R) → List (List R) → Params R)
    (xs ys : List (List R)) (n : ℕ) (theta : Params R) :
    trainLoop s g xs ys (n + 1) theta
      = NODE_gd s g (trainLoop s g xs ys n theta) xs ys := by
  induction n generalizing theta with
  | zero => rfl
  | succ n ih =>
    show trainLoop s g xs ys (n + 1) (NODE_gd s g theta xs ys) = _
    rw [ih]
    rfl

theorem trainLoop_eq_iterate (s : R)
    (g : Params R → List (List R) → List (List R) → Params R)
    (xs ys : List (List R)) (n : ℕ) (theta : Params R) :
    trainLoop s g xs ys n theta = (fun t => NODE_gd s g t xs ys)^[n] theta := by
  induction n generalizing theta with
  | zero => rfl
  | succ n ih =>
    show trainLoop s g xs ys n (NODE_gd s g theta xs ys) = _
    rw [ih, Function.iterate_succ_apply]

theorem getD_zipWith {α β γ : Type} (f : α → β → γ) (d : γ) (da : α) (db : β) :
    ∀ (a : List α) (b : List β) (i : ℕ), i < a.length → i < b.length →
      (List.zipWith f a b).getD i d = f (a.getD i da) (b.getD i db)
  | [], _, i, h, _ => absurd h (by simp)
  | _ :: _, [], i, _, h => absurd h (by simp)
  | x :: a, y :: b, 0, _, _ => rfl
  | x :: a, y :: b, i + 1, h1, h2 => by
    simp only [List.zipWith_cons_cons, List.getD_cons_succ]
    exact getD_zipWith f d da db a b i (by simpa using h1) (by simpa using h2)

theorem getD_map {α β : Type} (f : α → β) (d : β) (da : α) :
    ∀ (l : List α) (i : ℕ), i < l.length → (l.map f).getD i d = f (l.getD i da)
  | [], i, h => absurd h (by simp)
  | x :: l, 0, _ => rfl
  | x :: l, i + 1, h => by
    simp only [List.map_cons, List.getD_cons_succ]
    exact getD_map f d da l i (by simpa using h)

theorem getD_zip {α β : Type} (dab : α × β) (a : List α) (b : List β) (i : ℕ)
    (h1 : i < a.length) (h2 : i < b.length) :
    (a.zip b).getD i dab = (a.getD i dab.1, b.getD i dab.2) := by
  rw [List.zip_eq_zipWith]
  exact getD_zipWith Prod.mk dab dab.1 dab.2 a b i h1 h2

/-- C2: the training loop performs exactly `train_iters = 1000` successive
overwrites of the parameter collection by `NODE_gd`; each iteration depends
only on the previous parameter collection (no other state is retained), and
one `NODE_gd` step zips the layers with the gradients and replaces each weight
`w` by `w - step_size * dw` and each bias `b` by `b - step_size * db`,
entrywise. -/
theorem c2_training_loop (gradL : Params ℚ → List (List ℚ) → List (List ℚ) → Params ℚ)
    (xs ys : List (List ℚ)) (theta0 : Params ℚ) :
    train_iters = 1000
    ∧ trainLoop step_size gradL xs ys train_iters theta0
        = (fun t => NODE_gd step_size gradL t xs ys)^[1000] theta0
    ∧ (∀ (n : ℕ) (theta : Params ℚ), trainLoop step_size gradL xs ys (n + 1) theta
        = NODE_gd step_size gradL (trainLoop step_size gradL xs ys n theta) xs ys)
    ∧ (∀ theta : Params ℚ, NODE_gd step_size gradL theta xs ys
        = (theta.zip (gradL theta xs ys)).map
            (fun p => (matUpd step_size p.1.1 p.2.1, vecUpd step_size p.1.2 p.2.2)))
    ∧ (∀ w dw : List (List ℚ), matUpd step_size w dw
        = List.zipWith (List.zipWith (fun x dx => x - step_size * dx)) w dw)
    ∧ (∀ b db : List ℚ, vecUpd step_size b db
        = List.zipWith (fun x dx => x - step_size * dx) b db) :=
  ⟨rfl, trainLoop_eq_iterate step_size gradL xs ys train_iters theta0,
    fun n theta => trainLoop_succ_right step_size gradL xs ys n theta,
    fun _ => rfl, fun _ _ => rfl, fun _ _ => rfl⟩

/-- C5: the modelled `ODESolve` of Exercise 1 performs a single Euler
integration step: it returns `z_n + v(z_n, t_n) * (t_{n+1} - t_n)`, a
zero-length step returns the state unchanged, and the increment is exactly
the vector field value times the time difference (no error estimation, no
adaptivity). -/
theorem c5_odesolve_euler_step (v : R → R → R) (z tn tn1 : R) :
    ODESolve v z tn tn1 = z + v z tn * (tn1 - tn)
    ∧ ODESolve v z tn tn = z
    ∧ ODESolve v z tn tn1 - z = v z tn * (tn1 - tn) := by
  refine ⟨rfl, ?_, ?_⟩ <;> simp [ODESolve]

/-- C7: the Example-0 pipeline is deterministic given the random draws: two
random streams that agree pointwise produce the same initial parameters, the
same parameter collection after every training iteration, and the same
harmonic-oscillator input sample; the computation is a pure function of the
stream. -/
theorem c7_deterministic (gradL : Params ℚ → List (List ℚ) → List (List ℚ) → Params ℚ)
    (s1 s2 : ℕ → ℚ) (h : ∀ n, s1 n = s2 n) :
    init_random_params NODE_width s1 = init_random_params NODE_width s2
    ∧ (∀ k : ℕ, trainLoop step_size gradL NODE_input NODE_target k
          (init_random_params NODE_width s1)
        = trainLoop step_size gradL NODE_input NODE_target k
          (init_random_params NODE_width s2))
    ∧ harmonicInput s1 = harmonicInput s2 := by
  have hs : s1 = s2 := funext h
  subst hs
  exact ⟨rfl, fun k => rfl, rfl⟩

/-- Witness for C7 with the constant-zero stream. -/
theorem c7_deterministic_witness :
    (∀ n : ℕ, (fun _ : ℕ => (0 : ℚ)) n = (fun _ : ℕ => (0 : ℚ)) n)
    ∧ (init_random_params NODE_width (fun _ => (0 : ℚ))
          = init_random_params NODE_width (fun _ => (0 : ℚ))
      ∧ (∀ k : ℕ, trainLoop step_size (fun t _ _ => t) NODE_input NODE_target k
            (init_random_params NODE_width (fun _ => (0 : ℚ)))
          = trainLoop step_size (fun t _ _ => t) NODE_input NODE_target k
            (init_random_params NODE_width (fun _ => (0 : ℚ))))
      ∧ harmonicInput (fun _ => 0) = harmonicInput (fun _ => 0)) :=
  ⟨fun _ => rfl,
    c7_deterministic (fun t _ _ => t) (fun _ => 0) (fun _ => 0) (fun _ => rfl)⟩

/-- C8: the four exercise names `NODE_L2loss`, `batched_ODESolve`, `y` and
`y_prime` are bound by no code cell of either notebook, and executing the
training-loop cell, the plotting cell, or the harmonic-oscillator target-data
cell resolves one of them and therefore stops with an unresolved-name error
naming it, instead of producing a result. -/
theorem c8_exercises_unimplemented :
    ("NODE_L2loss" ∉ part000Defined ∧ "NODE_L2loss" ∉ klNotebookDefined)
    ∧ ("batched_ODESolve" ∉ part000Defined ∧ "batched_ODESolve" ∉ klNotebookDefined)
    ∧ ("y" ∉ part000Defined ∧ "y" ∉ klNotebookDefined)
    ∧ ("y_prime" ∉ part000Defined ∧ "y_prime" ∉ klNotebookDefined)
    ∧ evalCell trainingLoopCellRefs part000Defined = Except.error "NODE_L2loss"
    ∧ evalCell plotCellRefs part000Defined = Except.error "batched_ODESolve"
    ∧ evalCell targetCellRefs part000Defined = Except.error "y" :=
  ⟨⟨by decide, by decide⟩, ⟨by decide, by decide⟩, ⟨by decide, by decide⟩,
    ⟨by decide, by decide⟩, rfl, rfl, rfl⟩

/-! ### Helper lemmas about shapes -/

omit [CommRing R] in
theorem randnV_length (s : ℕ → R) (i q : ℕ) : (randnV s i q).length = q := by
  simp [randnV]

theorem randnM_shape (s : ℕ → R) (i p q : ℕ) : matShape (randnM s i p q) p q := by
  refine ⟨by simp [randnM], ?_⟩
  intro row hrow
  simp only [randnM, List.mem_map] at hrow
  obtain ⟨r, _, rfl⟩ := hrow
  exact randnV_length s _ q

theorem initAux_shape (s : ℕ → R) :
    ∀ (pqs : List (ℕ × ℕ)) (i : ℕ), paramsShape (initAux s pqs i) pqs
  | [], _ => List.Forall₂.nil
  | (p, q) :: rest, i =>
    List.Forall₂.cons ⟨randnM_shape s i p q, randnV_length s _ q⟩
      (initAux_shape s rest (i + p * q + q))

theorem layerDims_length (N : List ℕ) : (layerDims N).length = N.length - 1 := by
  simp [layerDims, List.length_zip, List.length_dropLast, List.length_tail]

theorem layerDims_get (N : List ℕ) (i : ℕ) (h : i + 1 < N.length)
    (hh : i < (layerDims N).length) :
    (layerDims N).get ⟨i, hh⟩ = (N.get ⟨i, by omega⟩, N.get ⟨i + 1, h⟩) := by
  have hd : i < N.dropLast.length := by
    rw [List.length_dropLast]; omega
  have htl : i < N.tail.length := by
    rw [List.length_tail]; omega
  simp only [layerDims, List.get_eq_getElem, List.getElem_zip, List.getElem_dropLast,
    List.getElem_tail]

theorem mem_zipWith {α β γ : Type} (f : α → β → γ) :
    ∀ (a : List α) (b : List β) (x : γ), x ∈ List.zipWith f a b →
      ∃ y ∈ a, ∃ z ∈ b, x = f y z
  | [], _, x, h => absurd h (by simp)
  | _ :: _, [], x, h => absurd h (by simp)
  | y :: a, z :: b, x, h => by
    rcases List.mem_cons.1 (by simpa using h) with h1 | h1
    · exact ⟨y, by simp, z, by simp, h1⟩
    · obtain ⟨y2, hy, z2, hz, rfl⟩ := mem_zipWith f a b x h1
      exact ⟨y2, List.mem_cons_of_mem y hy, z2, List.mem_cons_of_mem z hz, rfl⟩

theorem matUpd_shape (s : R) (w dw : List (List R)) (p q : ℕ)
    (h1 : matShape w p q) (h2 : matShape dw p q) : matShape (matUpd s w dw) p q := by
  obtain ⟨hl1, hrow1⟩ := h1
  obtain ⟨hl2, hrow2⟩ := h2
  refine ⟨by simp [matUpd, hl1, hl2], ?_⟩
  intro row hrow
  obtain ⟨y, hy, z, hz, rfl⟩ := mem_zipWith _ w dw row hrow
  simp [hrow1 y hy, hrow2 z hz]

theorem gdShape (s : R) (theta grads : Params R) (dims : List (ℕ × ℕ))
    (h1 : paramsShape theta dims) (h2 : paramsShape grads dims) :
    paramsShape ((theta.zip grads).map
      (fun p => (matUpd s p.1.1 p.2.1, vecUpd s p.1.2 p.2.2))) dims := by
  induction h1 generalizing grads with
  | nil =>
    cases h2
    exact List.Forall₂.nil
  | cons ha hl ih =>
    cases h2 with
    | cons hb hl2 =>
      refine List.Forall₂.cons ⟨matUpd_shape s _ _ _ _ ha.1 hb.1, ?_⟩ (ih _ hl2)
      simp [vecUpd, ha.2, hb.2]

/-- C3: `init_random_params(N)` returns exactly `len(N) - 1` layer pairs, the
`i`-th consisting of a weight matrix of shape `(N[i], N[i+1])` and a bias
vector of length `N[i+1]` (the dimension pairs being `zip(N[:-1], N[1:])`),
so consecutive layers are shape-compatible for the feedforward pass. -/
theorem c3_init_random_params_shapes (N : List ℕ) (s : ℕ → R) (i : ℕ)
    (h : i + 1 < N.length) (hh : i < (layerDims N).length) :
    (init_random_params N s).length = N.length - 1
    ∧ paramsShape (init_random_params N s) (layerDims N)
    ∧ (layerDims N).get ⟨i, hh⟩ = (N.get ⟨i, by omega⟩, N.get ⟨i + 1, h⟩) := by
  have hshape := initAux_shape (R := R) s (layerDims N) 0
  refine ⟨?_, hshape, layerDims_get N i h hh⟩
  have hlen := List.Forall₂.length_eq hshape
  rw [layerDims_length] at hlen
  exact hlen

/-- Witness for C3 with the notebook widths `[2, 20, 1]` and the zero
stream. -/
theorem c3_init_random_params_shapes_witness :
    (0 + 1 < ([2, 20, 1] : List ℕ).length ∧ 0 < (layerDims [2, 20, 1]).length)
    ∧ ((init_random_params [2, 20, 1] (fun _ => (0 : ℚ))).length
          = ([2, 20, 1] : List ℕ).length - 1
      ∧ paramsShape (init_random_params [2, 20, 1] (fun _ => (0 : ℚ)))
          (layerDims [2, 20, 1])
      ∧ (layerDims [2, 20, 1]).get ⟨0, by decide⟩
          = (([2, 20, 1] : List ℕ).get ⟨0, by decide⟩,
             ([2, 20, 1] : List ℕ).get ⟨0 + 1, by decide⟩)) :=
  ⟨⟨by decide, by decide⟩,
    c3_init_random_params_shapes [2, 20, 1] (fun _ => (0 : ℚ)) 0 (by decide) (by decide)⟩

/-- C6, counterexample: in the Neural-ODE notebook the parameter update of a
training iteration is performed by the hand-written gradient-descent
arithmetic of `NODE_gd` and not by a library-optimizer invocation: one
iteration of the training loop on the concrete parameters `[([[2]], [4])]`,
with the gradient function returning the parameters themselves, yields
exactly the in-line arithmetic result
`[([[2 - 0.0005 * 2]], [4 - 0.0005 * 4])] = [([[1999/1000]], [1999/500])]`,
and in particular changes the parameters. -/
theorem c6_counterexample_update_arithmetic :
    trainLoop step_size (fun t _ _ => t) [] [] 1 [([[2]], [4])]
      = [([[(1999 : ℚ) / 1000]], [(1999 : ℚ) / 500])]
    ∧ trainLoop step_size (fun t _ _ => t) [] [] 1 [([[2]], [4])]
      ≠ [([[(2 : ℚ)]], [4])] := by
  have e1 : (2 : ℚ) - step_size * 2 = 1999 / 1000 := by norm_num [step_size]
  have e2 : (4 : ℚ) - step_size * 4 = 1999 / 500 := by norm_num [step_size]
  have h1 : trainLoop step_size (fun t _ _ => t) [] [] 1 [([[2]], [4])]
      = [([[(2 : ℚ) - step_size * 2]], [4 - step_size * 4])] := rfl
  refine ⟨by rw [h1, e1, e2], fun hc => ?_⟩
  rw [h1, e1, e2] at hc
  norm_num at hc

/-- C6 (amended): the keras notebook delegates its parameter update to the
compiled library optimizer, but the Neural-ODE notebook computes the update
with the hand-written arithmetic of `NODE_gd`: entry `(r, c)` of the `i`-th
updated weight matrix equals `w[r][c] - step_size * dw[r][c]` and entry `j`
of the `i`-th updated bias equals `b[j] - step_size * db[j]`, where only the
gradients `(dw, db)` come from the library call `grad(NODE_L2loss)`. -/
theorem c6_amended_handwritten_gd
    (gradL : Params ℚ → List (List ℚ) → List (List ℚ) → Params ℚ)
    (theta : Params ℚ) (xs ys : List (List ℚ)) (i r c j : ℕ)
    (hi1 : i < theta.length) (hi2 : i < (gradL theta xs ys).length)
    (hr1 : r < ((theta.getD i ([], [])).1).length)
    (hr2 : r < (((gradL theta xs ys).getD i ([], [])).1).length)
    (hc1 : c < (((theta.getD i ([], [])).1).getD r []).length)
    (hc2 : c < ((((gradL theta xs ys).getD i ([], [])).1).getD r []).length)
    (hj1 : j < ((theta.getD i ([], [])).2).length)
    (hj2 : j < (((gradL theta xs ys).getD i ([], [])).2).length) :
    ((((NODE_gd step_size gradL theta xs ys).getD i ([], [])).1).getD r []).getD c 0
        = (((theta.getD i ([], [])).1).getD r []).getD c 0
          - step_size * ((((gradL theta xs ys).getD i ([], [])).1).getD r []).getD c 0
    ∧ ((NODE_gd step_size gradL theta xs ys).getD i ([], [])).2.getD j 0
        = ((theta.getD i ([], [])).2).getD j 0
          - step_size * (((gradL theta xs ys).getD i ([], [])).2).getD j 0 := by
  have hzip : i < (theta.zip (gradL theta xs ys)).length := by
    rw [List.length_zip]; omega
  have hmain : (NODE_gd step_size gradL theta xs ys).getD i ([], [])
      = (matUpd step_size (theta.getD i ([], [])).1
            ((gradL theta xs ys).getD i ([], [])).1,
         vecUpd step_size (theta.getD i ([], [])).2
            ((gradL theta xs ys).getD i ([], [])).2) := by
    show ((theta.zip (gradL theta xs ys)).map
        (fun p => (matUpd step_size p.1.1 p.2.1, vecUpd step_size p.1.2 p.2.2))).getD i ([], [])
      = _
    rw [getD_map _ ([], []) (([], []), ([], [])) (theta.zip (gradL theta xs ys)) i hzip]
    rw [getD_zip (([], []), ([], [])) theta (gradL theta xs ys) i hi1 hi2]
  rw [hmain]
  constructor
  · show ((matUpd step_size _ _).getD r []).getD c 0 = _
    rw [show matUpd step_size (theta.getD i ([], [])).1 ((gradL theta xs ys).getD i ([], [])).1
        = List.zipWith (List.zipWith (fun x dx => x - step_size * dx))
            (theta.getD i ([], [])).1 ((gradL theta xs ys).getD i ([], [])).1 from rfl]
    rw [getD_zipWith (List.zipWith (fun x dx => x - step_size * dx)) [] [] [] _ _ r hr1 hr2]
    rw [getD_zipWith (fun x dx => x - step_size * dx) 0 0 0 _ _ c hc1 hc2]
  · show (vecUpd step_size _ _).getD j 0 = _
    rw [show vecUpd step_size (theta.getD i ([], [])).2 ((gradL theta xs ys).getD i ([], [])).2
        = List.zipWith (fun x dx => x - step_size * dx)
            (theta.getD i ([], [])).2 ((gradL theta xs ys).getD i ([], [])).2 from rfl]
    rw [getD_zipWith (fun x dx => x - step_size * dx) 0 0 0 _ _ j hj1 hj2]

/-- Witness for the amended C6 on a one-layer parameter collection, the
gradient function returning the parameters themselves. -/
theorem c6_amended_handwritten_gd_witness :
    (0 < ([(([[2]], [3]) : Layer ℚ)]).length
      ∧ 0 < ((([(([[2]], [3]) : Layer ℚ)]).getD 0 ([], [])).1).length
      ∧ 0 < (((([(([[2]], [3]) : Layer ℚ)]).getD 0 ([], [])).1).getD 0 []).length
      ∧ 0 < ((([(([[2]], [3]) : Layer ℚ)]).getD 0 ([], [])).2).length)
    ∧ (((((NODE_gd step_size (fun t _ _ => t) [(([[2]], [3]) : Layer ℚ)] [] []).getD 0
            ([], [])).1).getD 0 []).getD 0 0
          = (((([(([[2]], [3]) : Layer ℚ)]).getD 0 ([], [])).1).getD 0 []).getD 0 0
            - step_size * (((((fun (t : Params ℚ) (_ _ : List (List ℚ)) => t)
                [(([[2]], [3]) : Layer ℚ)] [] []).getD 0 ([], [])).1.getD 0 []).getD 0 0)
      ∧ ((NODE_gd step_size (fun t _ _ => t) [(([[2]], [3]) : Layer ℚ)] [] []).getD 0
            ([], [])).2.getD 0 0
          = ((([(([[2]], [3]) : Layer ℚ)]).getD 0 ([], [])).2).getD 0 0
            - step_size * ((((fun (t : Params ℚ) (_ _ : List (List ℚ)) => t)
                [(([[2]], [3]) : Layer ℚ)] [] []).getD 0 ([], [])).2).getD 0 0) :=
  ⟨⟨by decide, by decide, by decide, by decide⟩,
    c6_amended_handwritten_gd (fun t _ _ => t) [(([[2]], [3]) : Layer ℚ)] [] [] 0 0 0 0
      (by decide) (by decide) (by decide) (by decide)
      (by decide) (by decide) (by decide) (by decide)⟩

/-- C10: `NODE_gd` preserves the parameter-collection structure invariant:
given gradients of matching structure it returns a list of the same length
whose layer pairs have the same shapes as the input pairs, so the shape
invariant established by `init_random_params` holds after every training
iteration. -/
theorem c10_gd_preserves_shapes (s : R)
    (gradL : Params R → List (List R) → List (List R) → Params R)
    (xs ys : List (List R)) (N : List ℕ) (stream : ℕ → R) (theta : Params R)
    (hg : ∀ t : Params R, paramsShape t (layerDims N) →
      paramsShape (gradL t xs ys) (layerDims N))
    (ht : paramsShape theta (layerDims N)) :
    (NODE_gd s gradL theta xs ys).length = theta.length
    ∧ paramsShape (NODE_gd s gradL theta xs ys) (layerDims N)
    ∧ ∀ k : ℕ, paramsShape (trainLoop s gradL xs ys k (init_random_params N stream))
        (layerDims N) := by
  have hstep : ∀ t : Params R, paramsShape t (layerDims N) →
      paramsShape (NODE_gd s gradL t xs ys) (layerDims N) :=
    fun t h => gdShape s t (gradL t xs ys) (layerDims N) h (hg t h)
  refine ⟨?_, hstep theta ht, ?_⟩
  · have h1 := List.Forall₂.length_eq (hstep theta ht)
    have h2 := List.Forall₂.length_eq ht
    omega
  · intro k
    induction k with
    | zero => exact initAux_shape stream (layerDims N) 0
    | succ k ih =>
      rw [trainLoop_succ_right]
      exact hstep _ ih

/-- Witness for C10 with widths `[1, 1]`, the zero stream, and the gradient
function returning the parameters themselves. -/
theorem c10_gd_preserves_shapes_witness :
    ((∀ t : Params ℚ, paramsShape t (layerDims [1, 1]) →
        paramsShape ((fun (u : Params ℚ) (_ _ : List (List ℚ)) => u) t [] [])
          (layerDims [1, 1]))
      ∧ paramsShape [(([[5]], [7]) : Layer ℚ)] (layerDims [1, 1]))
    ∧ ((NODE_gd (1 : ℚ) (fun t _ _ => t) [(([[5]], [7]) : Layer ℚ)] [] []).length
          = ([(([[5]], [7]) : Layer ℚ)]).length
      ∧ paramsShape (NODE_gd (1 : ℚ) (fun t _ _ => t) [(([[5]], [7]) : Layer ℚ)] [] [])
          (layerDims [1, 1])
      ∧ ∀ k : ℕ, paramsShape
          (trainLoop (1 : ℚ) (fun t _ _ => t) [] [] k
            (init_random_params [1, 1] (fun _ => (0 : ℚ))))
          (layerDims [1, 1])) :=
  ⟨⟨fun _ h => h,
      List.Forall₂.cons ⟨⟨rfl, by simp⟩, rfl⟩ List.Forall₂.nil⟩,
    c10_gd_preserves_shapes (1 : ℚ) (fun t _ _ => t) [] [] [1, 1] (fun _ => (0 : ℚ))
      [(([[5]], [7]) : Layer ℚ)] (fun _ h => h)
      (List.Forall₂.cons ⟨⟨rfl, by simp⟩, rfl⟩ List.Forall₂.nil)⟩

end SummerSchool
